import Mathlib

/-!
Verification of `capytaine/problems.py`: the linear potential-flow problem data
model, its construction-time validators, the dispersion-relation dispatch, the
boundary-condition derivations, the equality/ordering contract, and the batch
builder `problems_from_dataset`.

Numbers that the Python code handles as IEEE floats are modelled as exact
rationals, with the infinities (`np.infty`, `-np.infty`) represented explicitly
by the extended type `XReal`.  Exceptions raised by the Python code are
modelled with `Except`.
-/

namespace Capytaine

set_option maxRecDepth 40000

/-- Extended rational numbers: a rational value, plus the two IEEE infinities
`np.infty` and `-np.infty` used by the source for `free_surface`, `sea_bottom`
and the derived `depth`.  (IEEE NaN is not represented: the validated problem
configurations never produce it, see the comments on `XReal.sub`.) -/
inductive XReal where
  | ninf : XReal
  | fin : ℚ → XReal
  | inf : XReal
deriving DecidableEq

namespace XReal

/-- Floating-point negation restricted to the values in play: `-np.infty`
exchanges with `np.infty`, finite values negate exactly. -/
def neg : XReal → XReal
  | ninf => inf
  | fin q => fin (-q)
  | inf => ninf

/-- Floating-point subtraction, used for `depth = free_surface - sea_bottom`.
The two cases `inf - inf` and `ninf - ninf` are IEEE NaN; they are unreachable
for validated problems (a `free_surface` of `inf` forces `sea_bottom = ninf`,
and `free_surface` is never `ninf`), and are given arbitrary values here. -/
def sub : XReal → XReal → XReal
  | fin a, fin b => fin (a - b)
  | fin _, ninf => inf
  | fin _, inf => ninf
  | inf, fin _ => inf
  | inf, ninf => inf
  | inf, inf => inf
  | ninf, fin _ => ninf
  | ninf, inf => ninf
  | ninf, ninf => inf

/-- The strict order on extended reals, as the Python `<` on floats. -/
def ltB : XReal → XReal → Bool
  | ninf, fin _ => true
  | ninf, inf => true
  | fin _, inf => true
  | fin a, fin b => decide (a < b)
  | _, _ => false

end XReal

/-- A 3D vector, as one row of a numpy `(n, 3)` array. -/
abbrev Vec3 : Type := ℚ × ℚ × ℚ

/-- Euclidean dot product of two 3D vectors: the row-wise
`(u * v).sum(axis=1)` of the source. -/
def dot (u v : Vec3) : ℚ := u.1 * v.1 + u.2.1 * v.2.1 + u.2.2 * v.2.2

/-- The mesh data consumed from the body collaborator: face centers and face
outward normals, one per face, in matching order. -/
structure Mesh where
  faces_centers : List Vec3
  faces_normals : List Vec3
deriving DecidableEq

/-- Number of faces of a mesh. -/
def Mesh.nbFaces (m : Mesh) : ℕ := m.faces_centers.length

/-- The interface of `FloatingBody` consumed by `problems.py`: a name, a mesh,
and an insertion-ordered mapping from degree-of-freedom name to a per-face 3D
vector field (Python's `body.dofs` dict, modelled as an association list). -/
structure Body where
  name : String
  mesh : Mesh
  dofs : List (String × List Vec3)
deriving DecidableEq

/-- Modelled from the spec: `FloatingBody` (capytaine/bodies.py, not under
src/) supplies "a body name string used for identity/sorting and uniqueness
checks" (spec section 6).  The body component of a problem's identity tuple is
therefore modelled by the body's name. -/
def Body.ident (b : Body) : String := b.name

/-- Shape invariant guaranteed by the mesh/body collaborator: one normal per
face center, and each degree-of-freedom field has one vector per face. -/
def Body.wf (b : Body) : Prop :=
  b.mesh.faces_normals.length = b.mesh.nbFaces ∧
  ∀ p ∈ b.dofs, p.2.length = b.mesh.nbFaces

/-- The six attrs fields of `LinearPotentialFlowProblem`, in declaration
order: `body`, `free_surface`, `sea_bottom`, `omega`, `g`, `rho`.  A `none`
body is a template problem. -/
structure ProblemData where
  body : Option Body
  free_surface : XReal
  sea_bottom : XReal
  omega : ℚ
  g : ℚ
  rho : ℚ
deriving DecidableEq

/-- The default field values of `LinearPotentialFlowProblem`
(`rho=1000, g=9.81, free_surface=0.0, sea_bottom=-inf, omega=1.0`),
with a chosen body. -/
def defaultData (b : Option Body) : ProblemData :=
  { body := b, free_surface := XReal.fin 0, sea_bottom := XReal.ninf,
    omega := 1, g := 981/100, rho := 1000 }

/-- The exceptions raised by `problems.py` at problem-construction or
batch-building time.  `unknownDegreeOfFreedom` carries the requested name and
the list of valid names, which the source reports (via `LOG.error`) at the
failure site before raising. -/
inductive ProblemError where
  | unsupportedFreeSurface
  | infiniteFreeSurfaceFiniteBottom
  | seaBottomAboveFreeSurface
  | noDegreesOfFreedom (bodyName : String)
  | unknownDegreeOfFreedom (requested : String) (valid : List String)
  | duplicateBodyNames
  | unknownBodyFilter
deriving DecidableEq

/-- The attrs validator `_check_free_surface`: `free_surface` must be `0` or
`np.infty`; and a `free_surface` of `np.infty` together with a finite
`sea_bottom` is rejected. -/
def checkFreeSurface (d : ProblemData) : Except ProblemError Unit :=
  if ¬ (d.free_surface = XReal.fin 0 ∨ d.free_surface = XReal.inf) then
    throw ProblemError.unsupportedFreeSurface
  else if d.free_surface = XReal.inf ∧ d.sea_bottom ≠ XReal.ninf then
    throw ProblemError.infiniteFreeSurfaceFiniteBottom
  else
    pure ()

/-- The attrs validator `_check_depth`: the sea bottom must not be above the
free surface. -/
def checkDepth (d : ProblemData) : Except ProblemError Unit :=
  if XReal.ltB d.free_surface d.sea_bottom then
    throw ProblemError.seaBottomAboveFreeSurface
  else
    pure ()

/-- Construction of a `LinearPotentialFlowProblem`: attrs assigns all fields,
then runs the validators in field order (the `body` validator only emits a
warning and is omitted here; then `_check_free_surface`, then `_check_depth`). -/
def mkLinearPotentialFlowProblem (d : ProblemData) : Except ProblemError ProblemData := do
  checkFreeSurface d
  checkDepth d
  pure d

/-- The derived property `depth = free_surface - sea_bottom`. -/
def ProblemData.depth (d : ProblemData) : XReal :=
  XReal.sub d.free_surface d.sea_bottom

/-- `a * x / b` for an extended `x`, as used in `omega**2 * depth / g`.
For infinite `x` the result follows IEEE arithmetic when `a > 0` and `b > 0`
(the physically meaningful range, `omega > 0` and `g > 0`); other sign
combinations would give NaN or a flipped sign in IEEE and are not modelled. -/
def qMulXdivQ (a : ℚ) (x : XReal) (b : ℚ) : XReal :=
  match x with
  | XReal.fin t => XReal.fin (a * t / b)
  | XReal.inf => XReal.inf
  | XReal.ninf => XReal.ninf

/-- Outcome of the `wavenumber` property: either a value returned in closed
form, or an invocation of the scipy `newton` root search on the finite-depth
dispersion relation with the recorded `omega`, `depth` and `g` (the root
itself is transcendental and outside the rational model). -/
inductive WavenumberResult where
  | value (k : ℚ)
  | rootSearch (omega : ℚ) (depth : XReal) (g : ℚ)
deriving DecidableEq

/-- The `wavenumber` property:
`if self.depth == np.infty or self.omega**2*self.depth/self.g > 20` return the
deep-water closed form `omega**2/g`, else run the Newton root search.  For a
`ninf` depth (unreachable after validation) the IEEE dimensionless parameter is
`-inf` or NaN, never `> 20`, so the code falls through to the root search. -/
def ProblemData.wavenumber (d : ProblemData) : WavenumberResult :=
  match d.depth with
  | XReal.inf => WavenumberResult.value (d.omega ^ 2 / d.g)
  | XReal.fin t =>
      if d.omega ^ 2 * t / d.g > 20 then WavenumberResult.value (d.omega ^ 2 / d.g)
      else WavenumberResult.rootSearch d.omega (XReal.fin t) d.g
  | XReal.ninf => WavenumberResult.rootSearch d.omega XReal.ninf d.g

/-- The `dimensionless_omega` property: `omega**2*depth/g` when the depth is
not `np.infty`, otherwise an `AttributeError` with the source's message. -/
def ProblemData.dimensionless_omega (d : ProblemData) : Except String XReal :=
  if d.depth ≠ XReal.inf then
    Except.ok (qMulXdivQ (d.omega ^ 2) d.depth d.g)
  else
    Except.error "Dimensionless omega is defined only for finite depth problems."

/-- Modelled from the spec: the incident-wave evaluator `Airy_wave_velocity`
(capytaine/tools/Airy_wave.py, not under src/) is "a pure function taking a
set of points, the problem's frequency/depth/gravity context, and a convention
tag, returning one 3D velocity vector per point" (spec section 6).  The
concrete formula is out of the spec's scope; only the one-vector-per-point
shape is specified, so an arbitrary pure per-point field is used. -/
def Airy_wave_velocity (points : List Vec3) (d : ProblemData) (convention : String) : List Vec3 :=
  points.map (fun p => (d.omega * p.1, d.omega * p.2.1, d.omega * p.2.2))

/-- A constructed `DiffractionProblem`: the base fields plus `angle` and
`convention`, and the derived `boundary_condition` (set only when a body is
supplied; `none` for a template problem). -/
structure DiffractionProblem where
  data : ProblemData
  angle : ℚ
  convention : String
  boundary_condition : Option (List ℚ)
deriving DecidableEq

/-- Construction of a `DiffractionProblem`: base validators, then
`__attrs_post_init__` computes
`-(Airy_wave_velocity(faces_centers, self, convention) * faces_normals).sum(axis=1)`
when a body is supplied. -/
def mkDiffractionProblem (d : ProblemData) (angle : ℚ) (convention : String) :
    Except ProblemError DiffractionProblem := do
  let d ← mkLinearPotentialFlowProblem d
  match d.body with
  | none =>
      pure { data := d, angle := angle, convention := convention, boundary_condition := none }
  | some b =>
      pure { data := d, angle := angle, convention := convention,
             boundary_condition := some (List.zipWith (fun v n => -(dot v n))
               (Airy_wave_velocity b.mesh.faces_centers d convention) b.mesh.faces_normals) }

/-- A constructed `RadiationProblem`: the base fields plus `radiating_dof`
(after the post-init defaulting) and the derived `boundary_condition`. -/
structure RadiationProblem where
  data : ProblemData
  radiating_dof : Option String
  boundary_condition : Option (List ℚ)
deriving DecidableEq

/-- Construction of a `RadiationProblem`: base validators, then
`__attrs_post_init__`: a template problem (no body) gets
`boundary_condition = None` and skips every degree-of-freedom check; otherwise
the body must have at least one dof, an unset `radiating_dof` defaults to the
first declared dof, an unknown name fails (the source logs the requested name
and the list `list(self.body.dofs.keys())` and raises), and the boundary
condition is `np.sum(dof * faces_normals, axis=1)`. -/
def mkRadiationProblem (d : ProblemData) (radiating_dof : Option String) :
    Except ProblemError RadiationProblem := do
  let d ← mkLinearPotentialFlowProblem d
  match d.body with
  | none =>
      pure { data := d, radiating_dof := radiating_dof, boundary_condition := none }
  | some b =>
      match b.dofs with
      | [] => throw (ProblemError.noDegreesOfFreedom b.name)
      | (firstDofName, _) :: _ =>
          let dofName := radiating_dof.getD firstDofName
          match b.dofs.lookup dofName with
          | none =>
              throw (ProblemError.unknownDegreeOfFreedom dofName (b.dofs.map Prod.fst))
          | some dof =>
              pure { data := d, radiating_dof := some dofName,
                     boundary_condition := some (List.zipWith dot dof b.mesh.faces_normals) }

/-- A problem of any of the three classes (all are instances of the base
class, which is what `__eq__` and `__lt__` check with `isinstance`). -/
inductive Problem where
  | base (d : ProblemData)
  | diffraction (p : DiffractionProblem)
  | radiation (p : RadiationProblem)
deriving DecidableEq

/-- The base fields of a problem of any class. -/
def Problem.data : Problem → ProblemData
  | Problem.base d => d
  | Problem.diffraction p => p.data
  | Problem.radiation p => p.data

/-- Whether a problem is a `RadiationProblem`. -/
def Problem.isRadiation : Problem → Bool
  | Problem.radiation _ => true
  | _ => false

/-- The comparison key type: the first six entries of `astuple`, with the body
slot reduced to the body's identity (its name, see `Body.ident`). -/
abbrev ProblemKey : Type := Option String × XReal × XReal × ℚ × ℚ × ℚ

/-- `astuple(self)[:6]`: the identity tuple `(body, free_surface, sea_bottom,
omega, g, rho)` used by `__eq__` and `__lt__` (attrs lists base-class fields
first, so the slice is the same six fields for every subclass). -/
def ProblemData.astuple6 (d : ProblemData) : ProblemKey :=
  (d.body.map Body.ident, d.free_surface, d.sea_bottom, d.omega, d.g, d.rho)

/-- `__eq__`: both operands are instances of the base class, so compare the
first six fields of `astuple`. -/
def Problem.eqB (p q : Problem) : Bool :=
  decide (p.data.astuple6 = q.data.astuple6)

/-- Python's lexicographic comparison of a pair: at the first component where
the two tuples differ, the result is the comparison of that component. -/
def lexLt2 {α β : Type} [DecidableEq α] (la : α → α → Bool) (lb : β → β → Bool)
    (x y : α × β) : Bool :=
  if x.1 = y.1 then lb x.2 y.2 else la x.1 y.1

/-- Lifting of a strict order to `Option`, for the body slot of the key.
Comparing a template problem (no body) with a concrete one is a `TypeError` in
Python and unreachable in the batch builder (every built problem has a body);
`none` is arbitrarily placed first here. -/
def optLt {α : Type} (l : α → α → Bool) : Option α → Option α → Bool
  | none, some _ => true
  | some a, some b => l a b
  | _, _ => false

/-- Strict order on rationals as a Bool. -/
def ratLt (a b : ℚ) : Bool := decide (a < b)

/-- Strict order on strings as a Bool, the externally defined order on body
names. -/
def strLt (a b : String) : Bool := decide (a < b)

/-- Python's `<` on the six-field identity tuples. -/
def keyLt : ProblemKey → ProblemKey → Bool :=
  lexLt2 (optLt strLt) (lexLt2 XReal.ltB (lexLt2 XReal.ltB
    (lexLt2 ratLt (lexLt2 ratLt ratLt))))

/-- `__lt__`: both operands are instances of the base class, so compare the
first six fields of `astuple` lexicographically. -/
def Problem.ltB (p q : Problem) : Bool :=
  keyLt p.data.astuple6 q.data.astuple6

/-- The non-strict order induced by `__lt__`, in which Python's stable sort
leaves the list: consecutive elements `p`, `q` satisfy `not (q < p)`. -/
def problemLE (p q : Problem) : Prop := Problem.ltB q p = false

instance : DecidableRel problemLE := fun p q =>
  inferInstanceAs (Decidable (Problem.ltB q p = false))

/-- The parameter sweep consumed by `problems_from_dataset`: each axis is
present (`some values`) or absent from the dataset (`none`). -/
structure Dataset where
  omega : Option (List ℚ)
  angle : Option (List ℚ)
  radiating_dof : Option (List String)
  water_depth : Option (List XReal)
  body_name : Option (List String)

/-- `itertools.product(as, bs, cs, ds)`: all combinations, rightmost axis
varying fastest. -/
def product4 {α β γ δ : Type} (as : List α) (bs : List β) (cs : List γ) (ds : List δ) :
    List (α × β × γ × δ) :=
  as.flatMap (fun a => bs.flatMap (fun b => cs.flatMap (fun c => ds.map (fun e => (a, b, c, e)))))

/-- Python's `sorted(problems)`: a stable sort driven by `__lt__`.  A stable
sort is uniquely determined by its comparison, and `List.insertionSort` with
the induced non-strict order `problemLE` is stable, so it is an exact model. -/
def sortedProblems (ps : List Problem) : List Problem :=
  List.insertionSort problemLE ps

/-- `problems_from_dataset(dataset, bodies)`: assert distinct body names,
read each axis with its default (`omega` defaults to `[1.0]`, `water_depth` to
`[np.infty]`), optionally filter the bodies by `body_name` (asserting the
filter only names known bodies), build one `DiffractionProblem` per
`(omega, angle, water_depth, body)` combination when angles were requested and
one `RadiationProblem` per `(omega, radiating_dof, water_depth, body)`
combination when dofs were requested (each with `sea_bottom = -water_depth`
and every other field at its default), returning the combined list; the
wrapper `problems_from_dataset` below applies the final `sorted(problems)`. -/
def unsorted_problems_from_dataset (dataset : Dataset) (bodies : List Body) :
    Except ProblemError (List Problem) := do
  if ¬ (bodies.map Body.name).Nodup then
    throw ProblemError.duplicateBodyNames
  let omega_range := dataset.omega.getD [1]
  let water_depth_range := dataset.water_depth.getD [XReal.inf]
  let body_range ← match dataset.body_name with
    | some names =>
        if ¬ names.all (fun n => (bodies.map Body.name).contains n) then
          throw ProblemError.unknownBodyFilter
        else
          pure ((bodies.filter (fun b => names.contains b.name)).map (fun b => (b.name, b)))
    | none => pure (bodies.map (fun b => (b.name, b)))
  let diffractionProblems ← match dataset.angle with
    | none => pure []
    | some angles =>
        (product4 omega_range angles water_depth_range body_range).mapM
          (fun c => match c with
            | (omega, angle, water_depth, (_, body)) =>
                Except.map Problem.diffraction (mkDiffractionProblem
                  { body := some body, free_surface := XReal.fin 0,
                    sea_bottom := XReal.neg water_depth,
                    omega := omega, g := 981/100, rho := 1000 } angle "Nemoh"))
  let radiationProblems ← match dataset.radiating_dof with
    | none => pure []
    | some dofNames =>
        (product4 omega_range dofNames water_depth_range body_range).mapM
          (fun c => match c with
            | (omega, dofName, water_depth, (_, body)) =>
                Except.map Problem.radiation (mkRadiationProblem
                  { body := some body, free_surface := XReal.fin 0,
                    sea_bottom := XReal.neg water_depth,
                    omega := omega, g := 981/100, rho := 1000 } (some dofName)))
  pure (diffractionProblems ++ radiationProblems)

/-- `problems_from_dataset`: the accumulated problem list is returned as
`sorted(problems)`. -/
def problems_from_dataset (dataset : Dataset) (bodies : List Body) :
    Except ProblemError (List Problem) :=
  Except.map sortedProblems (unsorted_problems_from_dataset dataset bodies)

/-- Holds when a batch-builder outcome is either an error or a list sorted by
the lexicographic six-tuple order. -/
def sortedOutput : Except ProblemError (List Problem) → Prop
  | Except.error _ => True
  | Except.ok out => List.Sorted problemLE out

/-- A Bool-valued strict weak order that is linear up to structural equality:
irreflexive, asymmetric, transitive, and total on distinct elements. -/
structure IsSLO {α : Type} (lt : α → α → Bool) : Prop where
  irrefl : ∀ a, lt a a = false
  asymm : ∀ a b, lt a b = true → lt b a = false
  trans : ∀ a b c, lt a b = true → lt b c = true → lt a c = true
  total : ∀ a b, a ≠ b → lt a b = true ∨ lt b a = true

theorem isSLO_decide_lt {α : Type} [LinearOrder α] :
    IsSLO (fun a b : α => decide (a < b)) := by
  constructor
  · intro a; simp
  · intro a b h; simp_all; exact le_of_lt h
  · intro a b c h1 h2; simp_all; exact lt_trans h1 h2
  · intro a b h
    rcases lt_or_gt_of_ne h with h1 | h1
    · exact Or.inl (by simpa using h1)
    · exact Or.inr (by simpa using h1)

theorem isSLO_ratLt : IsSLO ratLt := isSLO_decide_lt

theorem isSLO_strLt : IsSLO strLt := by
  constructor
  · intro a; simp [strLt]
  · intro a b h; simp_all [strLt]; exact le_of_lt h
  · intro a b c h1 h2; simp_all [strLt]; exact lt_trans h1 h2
  · intro a b h
    unfold strLt
    rcases lt_or_gt_of_ne h with h1 | h1
    · exact Or.inl (by simpa using h1)
    · exact Or.inr (by simpa using h1)

theorem isSLO_xrealLt : IsSLO XReal.ltB := by
  constructor
  · rintro (_ | q | _) <;> simp [XReal.ltB]
  · rintro (_ | a | _) (_ | b | _) h <;> simp_all [XReal.ltB]
    exact le_of_lt h
  · rintro (_ | a | _) (_ | b | _) (_ | c | _) h1 h2 <;> simp_all [XReal.ltB]
    exact lt_trans h1 h2
  · rintro (_ | a | _) (_ | b | _) h <;> simp_all [XReal.ltB]

theorem IsSLO.opt {α : Type} {l : α → α → Bool} (h : IsSLO l) : IsSLO (optLt l) := by
  constructor
  · rintro (_ | a) <;> simp [optLt, h.irrefl]
  · rintro (_ | a) (_ | b) hab <;> simp_all [optLt]
    exact h.asymm _ _ hab
  · rintro (_ | a) (_ | b) (_ | c) h1 h2 <;> simp_all [optLt]
    exact h.trans _ _ _ h1 h2
  · rintro (_ | a) (_ | b) hne <;> simp_all [optLt]
    exact h.total _ _ hne

theorem IsSLO.lex {α β : Type} [DecidableEq α] {la : α → α → Bool} {lb : β → β → Bool}
    (ha : IsSLO la) (hb : IsSLO lb) : IsSLO (lexLt2 la lb) := by
  constructor
  · rintro ⟨a, b⟩
    simp [lexLt2, hb.irrefl]
  · rintro ⟨a1, b1⟩ ⟨a2, b2⟩ hlt
    by_cases he : a1 = a2
    · subst he
      simp only [lexLt2, if_pos rfl] at hlt ⊢
      exact hb.asymm _ _ hlt
    · simp only [lexLt2, if_neg he, if_neg (Ne.symm he)] at hlt ⊢
      exact ha.asymm _ _ hlt
  · rintro ⟨a1, b1⟩ ⟨a2, b2⟩ ⟨a3, b3⟩ h1 h2
    by_cases he12 : a1 = a2 <;> by_cases he23 : a2 = a3
    · subst he12; subst he23
      simp only [lexLt2, if_pos rfl] at h1 h2 ⊢
      exact hb.trans _ _ _ h1 h2
    · subst he12
      simp only [lexLt2, if_neg he23] at h2 ⊢
      exact h2
    · subst he23
      simp only [lexLt2, if_neg he12] at h1 ⊢
      exact h1
    · simp only [lexLt2, if_neg he12, if_neg he23] at h1 h2
      have h13 : la a1 a3 = true := ha.trans _ _ _ h1 h2
      have hne : a1 ≠ a3 := by
        intro hEq
        subst hEq
        have := ha.asymm _ _ h1
        rw [this] at h2
        exact Bool.false_ne_true h2
      simp only [lexLt2, if_neg hne]
      exact h13
  · rintro ⟨a1, b1⟩ ⟨a2, b2⟩ hne
    by_cases he : a1 = a2
    · subst he
      have hb12 : b1 ≠ b2 := by
        intro hEq; exact hne (by rw [hEq])
      simp only [lexLt2, if_pos rfl]
      exact hb.total _ _ hb12
    · simp only [lexLt2, if_neg he, if_neg (Ne.symm he)]
      exact ha.total _ _ he

theorem isSLO_keyLt : IsSLO keyLt :=
  (isSLO_strLt.opt).lex (isSLO_xrealLt.lex (isSLO_xrealLt.lex
    (isSLO_ratLt.lex (isSLO_ratLt.lex isSLO_ratLt))))

theorem problemLE_total : ∀ p q : Problem, problemLE p q ∨ problemLE q p := by
  intro p q
  by_cases h : Problem.ltB q p = false
  · exact Or.inl h
  · right
    have hqp : Problem.ltB q p = true := by
      cases hv : Problem.ltB q p
      · exact absurd hv h
      · rfl
    unfold problemLE Problem.ltB at hqp ⊢
    exact isSLO_keyLt.asymm _ _ hqp

theorem problemLE_trans : ∀ p q r : Problem, problemLE p q → problemLE q r → problemLE p r := by
  intro p q r h1 h2
  unfold problemLE Problem.ltB at h1 h2 ⊢
  by_contra hc
  have hrp : keyLt r.data.astuple6 p.data.astuple6 = true := by
    cases hv : keyLt r.data.astuple6 p.data.astuple6
    · exact absurd hv hc
    · rfl
  by_cases he : q.data.astuple6 = r.data.astuple6
  · rw [he] at h1
    rw [hrp] at h1
    exact Bool.noConfusion h1
  · rcases isSLO_keyLt.total _ _ he with hqr | hrq
    · have hqp := isSLO_keyLt.trans _ _ _ hqr hrp
      rw [hqp] at h1
      exact Bool.noConfusion h1
    · rw [hrq] at h2
      exact Bool.noConfusion h2

theorem sortedProblems_sorted (l : List Problem) : List.Sorted problemLE (sortedProblems l) := by
  haveI : IsTotal Problem problemLE := ⟨problemLE_total⟩
  haveI : IsTrans Problem problemLE := ⟨fun a b c => problemLE_trans a b c⟩
  exact List.sorted_insertionSort problemLE l

/-- A small example mesh with two immersed faces. -/
def sphereMesh : Mesh :=
  { faces_centers := [(0, 0, -1), (0, 0, -2)], faces_normals := [(0, 0, 1), (0, 0, -1)] }

/-- An example body declaring a single degree of freedom, named Heave. -/
def heaveBody : Body :=
  { name := "sphere", mesh := sphereMesh, dofs := [("Heave", [(0, 0, 1), (0, 0, 1)])] }

/-- An example body declaring two degrees of freedom, Heave then Surge. -/
def twoDofBody : Body :=
  { name := "cube", mesh := sphereMesh,
    dofs := [("Heave", [(0, 0, 1), (0, 0, 1)]), ("Surge", [(1, 0, 0), (1, 0, 0)])] }

/-- The sweep of the spec's builder test: `omega_range = [0.5, 1.0]`, no
angles, `radiating_dofs = [Heave]`, `water_depth_range = [inf]`, no body-name
filter. -/
def sweepDataset : Dataset :=
  { omega := some [1/2, 1], angle := none, radiating_dof := some ["Heave"],
    water_depth := some [XReal.inf], body_name := none }

/-- Claim C1: for every problem whose depth is infinite, and for every problem
whose dimensionless parameter `omega^2 * depth / g` exceeds 20, the
`wavenumber` property returns exactly the deep-water closed form `omega^2/g`
(the `WavenumberResult.value` constructor), without invoking the finite-depth
root search (the `WavenumberResult.rootSearch` constructor). -/
theorem wavenumber_deep_water (d : ProblemData)
    (h : d.depth = XReal.inf ∨ ∃ t : ℚ, d.depth = XReal.fin t ∧ d.omega ^ 2 * t / d.g > 20) :
    d.wavenumber = WavenumberResult.value (d.omega ^ 2 / d.g) := by
  rcases h with h | ⟨t, ht, hgt⟩
  · unfold ProblemData.wavenumber
    rw [h]
  · unfold ProblemData.wavenumber
    rw [ht]
    simp [hgt]

/-- Witness for C1: the default problem (sea bottom at `-np.infty`) has
infinite depth, and its `wavenumber` is returned in closed form. -/
theorem wavenumber_deep_water_witness :
    (defaultData none).wavenumber
      = WavenumberResult.value ((defaultData none).omega ^ 2 / (defaultData none).g) :=
  wavenumber_deep_water (defaultData none) (Or.inl (by with_unfolding_all rfl))

/-- Claim C3: the batch builder always returns its combined
diffraction+radiation list sorted by the lexicographic six-tuple order; and
the sweep with `omega_range = [0.5, 1.0]`, no angles,
`radiating_dofs = [Heave]`, `water_depth_range = [inf]` and one body declaring
a Heave dof returns exactly two problems, both `RadiationProblem`s (no
`DiffractionProblem`s), sorted by omega ascending (`0.5` then `1.0`). -/
theorem problems_from_dataset_sorted :
    (∀ (ds : Dataset) (bodies : List Body), sortedOutput (problems_from_dataset ds bodies)) ∧
    Except.map (fun out => (out.map Problem.isRadiation, out.map (fun p => p.data.omega)))
        (problems_from_dataset sweepDataset [heaveBody])
      = Except.ok ([true, true], [1/2, 1]) := by
  constructor
  · intro ds bodies
    unfold problems_from_dataset
    cases h : unsorted_problems_from_dataset ds bodies
    · simp [Except.map, sortedOutput]
    · simp only [Except.map]
      exact sortedProblems_sorted _
  · with_unfolding_all rfl

/-- Claim C2: equality on problems is an equivalence relation determined
exactly by the six-field identity tuple `(body, free_surface, sea_bottom,
omega, g, rho)`: reflexive, symmetric, transitive, equal iff the tuples are
equal; and two `RadiationProblem`s built on the same body with different
`radiating_dof` (Heave vs Surge) compare equal, so the subclass fields never
influence equality. -/
theorem problem_equality_contract :
    (∀ p : Problem, Problem.eqB p p = true) ∧
    (∀ p q : Problem, Problem.eqB p q = Problem.eqB q p) ∧
    (∀ p q r : Problem, Problem.eqB p q = true → Problem.eqB q r = true →
      Problem.eqB p r = true) ∧
    (∀ p q : Problem, Problem.eqB p q = true ↔ p.data.astuple6 = q.data.astuple6) ∧
    (Except.map RadiationProblem.radiating_dof
        (mkRadiationProblem (defaultData (some twoDofBody)) (some "Heave"))
      = Except.ok (some "Heave") ∧
     Except.map RadiationProblem.radiating_dof
        (mkRadiationProblem (defaultData (some twoDofBody)) (some "Surge"))
      = Except.ok (some "Surge") ∧
     (Except.map Problem.radiation
         (mkRadiationProblem (defaultData (some twoDofBody)) (some "Heave"))).toOption.bind
       (fun p1 => (Except.map Problem.radiation
           (mkRadiationProblem (defaultData (some twoDofBody)) (some "Surge"))).toOption.map
         (fun p2 => Problem.eqB p1 p2))
      = some true) := by
  refine ⟨?_, ?_, ?_, ?_, ?_, ?_, ?_⟩
  · intro p; simp [Problem.eqB]
  · intro p q; exact decide_eq_decide.mpr eq_comm
  · intro p q r h1 h2
    simp only [Problem.eqB, decide_eq_true_eq] at h1 h2 ⊢
    exact h1.trans h2
  · intro p q; simp [Problem.eqB]
  · with_unfolding_all rfl
  · with_unfolding_all rfl
  · with_unfolding_all rfl

/-- Witness for C2: transitivity applied at a concrete problem. -/
theorem problem_equality_contract_witness :
    Problem.eqB (Problem.base (defaultData none)) (Problem.base (defaultData none)) = true :=
  problem_equality_contract.2.2.1 (Problem.base (defaultData none))
    (Problem.base (defaultData none)) (Problem.base (defaultData none))
    (by with_unfolding_all rfl) (by with_unfolding_all rfl)

/-- Claim C8: `dimensionless_omega` returns exactly `omega^2 * depth / g` on
every finite-depth problem, and fails with the depth-restriction
`AttributeError` exactly when the depth is infinite. -/
theorem dimensionless_omega_contract :
    (∀ (d : ProblemData) (t : ℚ), d.depth = XReal.fin t →
      d.dimensionless_omega = Except.ok (XReal.fin (d.omega ^ 2 * t / d.g))) ∧
    (∀ d : ProblemData,
      d.dimensionless_omega
          = Except.error "Dimensionless omega is defined only for finite depth problems."
        ↔ d.depth = XReal.inf) := by
  constructor
  · intro d t ht
    unfold ProblemData.dimensionless_omega
    rw [ht]
    simp [qMulXdivQ]
  · intro d
    unfold ProblemData.dimensionless_omega
    by_cases hd : d.depth = XReal.inf
    · simp [hd]
    · simp [hd]

/-- Witness for C8: a problem with the sea bottom at `z = -10` has depth 10
and `dimensionless_omega = omega^2 * 10 / g`. -/
theorem dimensionless_omega_contract_witness :
    ({ (defaultData none) with sea_bottom := XReal.fin (-10) } : ProblemData).dimensionless_omega
      = Except.ok (XReal.fin
          (({ (defaultData none) with sea_bottom := XReal.fin (-10) } : ProblemData).omega ^ 2 * 10
            / ({ (defaultData none) with sea_bottom := XReal.fin (-10) } : ProblemData).g)) :=
  dimensionless_omega_contract.1 { (defaultData none) with sea_bottom := XReal.fin (-10) } 10
    (by with_unfolding_all rfl)

/-- Claim C9: equality does not distinguish problem kinds: a
`DiffractionProblem` and a `RadiationProblem` with equal six-field identity
tuples compare equal, because `__eq__` only checks membership in the common
base class and compares the first six fields. -/
theorem diffraction_radiation_cross_equality (dp : DiffractionProblem) (rp : RadiationProblem)
    (h : dp.data.astuple6 = rp.data.astuple6) :
    Problem.eqB (Problem.diffraction dp) (Problem.radiation rp) = true := by
  simp [Problem.eqB, Problem.data, h]

/-- A template diffraction problem over the default base fields. -/
def diffractionTemplate : DiffractionProblem :=
  { data := defaultData none, angle := 0, convention := "Nemoh", boundary_condition := none }

/-- A template radiation problem over the default base fields. -/
def radiationTemplate : RadiationProblem :=
  { data := defaultData none, radiating_dof := none, boundary_condition := none }

/-- Witness for C9: a template diffraction problem and a template radiation
problem over the same base fields compare equal. -/
theorem diffraction_radiation_cross_equality_witness :
    Problem.eqB (Problem.diffraction diffractionTemplate)
      (Problem.radiation radiationTemplate) = true :=
  diffraction_radiation_cross_equality diffractionTemplate radiationTemplate rfl

theorem checkFreeSurface_bad {d : ProblemData} (h1 : d.free_surface ≠ XReal.fin 0)
    (h2 : d.free_surface ≠ XReal.inf) :
    checkFreeSurface d = Except.error ProblemError.unsupportedFreeSurface := by
  unfold checkFreeSurface
  rw [if_pos]
  · rfl
  · rintro (h | h)
    · exact h1 h
    · exact h2 h

theorem checkFreeSurface_good {d : ProblemData}
    (h : d.free_surface = XReal.fin 0 ∨ d.free_surface = XReal.inf) :
    checkFreeSurface d = Except.ok ()
      ∨ checkFreeSurface d = Except.error ProblemError.infiniteFreeSurfaceFiniteBottom := by
  unfold checkFreeSurface
  rw [if_neg (not_not_intro h)]
  split
  · exact Or.inr rfl
  · exact Or.inl rfl

theorem checkDepth_cases (d : ProblemData) :
    checkDepth d = Except.ok ()
      ∨ checkDepth d = Except.error ProblemError.seaBottomAboveFreeSurface := by
  unfold checkDepth
  split
  · exact Or.inr rfl
  · exact Or.inl rfl

theorem mkLinear_error_of_checkFS {d : ProblemData} {e : ProblemError}
    (h : checkFreeSurface d = Except.error e) :
    mkLinearPotentialFlowProblem d = Except.error e := by
  simp [mkLinearPotentialFlowProblem, h, bind, Except.bind]

theorem mkLinear_of_checkFS_ok {d : ProblemData} (h : checkFreeSurface d = Except.ok ()) :
    mkLinearPotentialFlowProblem d = Except.ok d
      ∨ mkLinearPotentialFlowProblem d = Except.error ProblemError.seaBottomAboveFreeSurface := by
  rcases checkDepth_cases d with hcd | hcd
  · left
    simp [mkLinearPotentialFlowProblem, h, hcd, bind, Except.bind, pure, Except.pure]
  · right
    simp [mkLinearPotentialFlowProblem, h, hcd, bind, Except.bind]

theorem mkDiffraction_error_of_mkLinear {d : ProblemData} {e : ProblemError}
    (h : mkLinearPotentialFlowProblem d = Except.error e) (angle : ℚ) (conv : String) :
    mkDiffractionProblem d angle conv = Except.error e := by
  simp [mkDiffractionProblem, h, bind, Except.bind]

theorem mkRadiation_error_of_mkLinear {d : ProblemData} {e : ProblemError}
    (h : mkLinearPotentialFlowProblem d = Except.error e) (rdof : Option String) :
    mkRadiationProblem d rdof = Except.error e := by
  simp [mkRadiationProblem, h, bind, Except.bind]

theorem mkDiffraction_ok_of_mkLinear {d : ProblemData}
    (h : mkLinearPotentialFlowProblem d = Except.ok d) (angle : ℚ) (conv : String) :
    ∃ p, mkDiffractionProblem d angle conv = Except.ok p := by
  unfold mkDiffractionProblem
  simp only [h, bind, Except.bind]
  cases hb : d.body <;> simp [hb, pure, Except.pure]

theorem mkRadiation_ne_unsupported_of_mkLinear {d : ProblemData}
    (h : mkLinearPotentialFlowProblem d = Except.ok d) (rdof : Option String) :
    mkRadiationProblem d rdof ≠ Except.error ProblemError.unsupportedFreeSurface := by
  unfold mkRadiationProblem
  simp only [h, bind, Except.bind]
  cases hb : d.body with
  | none => simp [hb, pure, Except.pure]
  | some b =>
      cases hdofs : b.dofs with
      | nil => simp [hb, hdofs, throw, throwThe, MonadExceptOf.throw]
      | cons hd tl =>
          obtain ⟨n0, v0⟩ := hd
          cases hlk : List.lookup (rdof.getD n0) ((n0, v0) :: tl) with
          | none => simp [hb, hdofs, hlk, throw, throwThe, MonadExceptOf.throw]
          | some v => simp [hb, hdofs, hlk, pure, Except.pure]

/-- Claim C7: constructing any problem whose `free_surface` is neither exactly
0 nor positive infinity fails at construction time with the
unsupported-configuration error, for the base class and for both subclasses;
and no construction with `free_surface` in `{0, inf}` can fail with that
error (other checks may still fail, with different errors). -/
theorem free_surface_validation :
    (∀ d : ProblemData, d.free_surface ≠ XReal.fin 0 → d.free_surface ≠ XReal.inf →
      mkLinearPotentialFlowProblem d = Except.error ProblemError.unsupportedFreeSurface ∧
      (∀ (angle : ℚ) (conv : String),
        mkDiffractionProblem d angle conv = Except.error ProblemError.unsupportedFreeSurface) ∧
      (∀ rdof : Option String,
        mkRadiationProblem d rdof = Except.error ProblemError.unsupportedFreeSurface)) ∧
    (∀ d : ProblemData, d.free_surface = XReal.fin 0 ∨ d.free_surface = XReal.inf →
      mkLinearPotentialFlowProblem d ≠ Except.error ProblemError.unsupportedFreeSurface ∧
      (∀ (angle : ℚ) (conv : String),
        mkDiffractionProblem d angle conv ≠ Except.error ProblemError.unsupportedFreeSurface) ∧
      (∀ rdof : Option String,
        mkRadiationProblem d rdof ≠ Except.error ProblemError.unsupportedFreeSurface)) := by
  constructor
  · intro d h1 h2
    have hfs := checkFreeSurface_bad h1 h2
    have hlin := mkLinear_error_of_checkFS hfs
    exact ⟨hlin, fun angle conv => mkDiffraction_error_of_mkLinear hlin angle conv,
           fun rdof => mkRadiation_error_of_mkLinear hlin rdof⟩
  · intro d hgood
    rcases checkFreeSurface_good hgood with hfs | hfs
    · rcases mkLinear_of_checkFS_ok hfs with hlin | hlin
      · refine ⟨by simp [hlin], fun angle conv => ?_, fun rdof => ?_⟩
        · obtain ⟨p, hp⟩ := mkDiffraction_ok_of_mkLinear hlin angle conv
          simp [hp]
        · exact mkRadiation_ne_unsupported_of_mkLinear hlin rdof
      · refine ⟨by simp [hlin], fun angle conv => ?_, fun rdof => ?_⟩
        · simp [mkDiffraction_error_of_mkLinear hlin angle conv]
        · simp [mkRadiation_error_of_mkLinear hlin rdof]
    · have hlin := mkLinear_error_of_checkFS hfs
      refine ⟨by simp [hlin], fun angle conv => ?_, fun rdof => ?_⟩
      · simp [mkDiffraction_error_of_mkLinear hlin angle conv]
      · simp [mkRadiation_error_of_mkLinear hlin rdof]

/-- Witness for C7: a diffraction problem with `free_surface = 5` fails with
the unsupported-configuration error, and the default configuration does not
fail with that error. -/
theorem free_surface_validation_witness :
    mkDiffractionProblem { (defaultData none) with free_surface := XReal.fin 5 } 0 "Nemoh"
        = Except.error ProblemError.unsupportedFreeSurface ∧
      mkDiffractionProblem (defaultData none) 0 "Nemoh"
        ≠ Except.error ProblemError.unsupportedFreeSurface :=
  ⟨(free_surface_validation.1 { (defaultData none) with free_surface := XReal.fin 5 }
      (by with_unfolding_all decide) (by with_unfolding_all decide)).2.1 0 "Nemoh",
   (free_surface_validation.2 (defaultData none) (Or.inl rfl)).2.1 0 "Nemoh"⟩

theorem lookup_eq_none_of_not_mem {l : List (String × List Vec3)} {k : String}
    (h : k ∉ l.map Prod.fst) : l.lookup k = none := by
  induction l with
  | nil => rfl
  | cons hd tl ih =>
      obtain ⟨k1, v1⟩ := hd
      simp only [List.map_cons, List.mem_cons] at h
      push_neg at h
      obtain ⟨h1, h2⟩ := h
      simp [List.lookup, beq_eq_false_iff_ne.mpr h1, ih h2]

theorem mem_of_lookup_eq_some {l : List (String × List Vec3)} {k : String} {v : List Vec3}
    (h : l.lookup k = some v) : (k, v) ∈ l := by
  induction l with
  | nil => simp [List.lookup] at h
  | cons hd tl ih =>
      obtain ⟨k1, v1⟩ := hd
      by_cases hk : k = k1
      · subst hk
        simp [List.lookup] at h
        subst h
        exact List.mem_cons_self _ _
      · simp [List.lookup, beq_eq_false_iff_ne.mpr hk] at h
        exact List.mem_cons_of_mem _ (ih h)

theorem getElem?_zipWith_dot (va vb : List Vec3) (i : ℕ) (dv nv : Vec3)
    (h1 : va[i]? = some dv) (h2 : vb[i]? = some nv) :
    (List.zipWith dot va vb)[i]? = some (dot dv nv) := by
  induction va generalizing vb i with
  | nil => simp at h1
  | cons a atl ih =>
      cases vb with
      | nil => simp at h2
      | cons b btl =>
          cases i with
          | zero =>
              simp only [List.getElem?_cons_zero, Option.some.injEq] at h1 h2
              simp [h1, h2]
          | succ n =>
              simp only [List.getElem?_cons_succ] at h1 h2
              simpa using ih btl n h1 h2

theorem mkDiffraction_ok_inversion {d : ProblemData} {b : Body} {angle : ℚ} {conv : String}
    {p : DiffractionProblem} (hb : d.body = some b)
    (hmk : mkDiffractionProblem d angle conv = Except.ok p) :
    p.data = d ∧ p.angle = angle ∧ p.convention = conv ∧
    p.boundary_condition
      = some (List.zipWith (fun v n => -(dot v n))
          (Airy_wave_velocity b.mesh.faces_centers d conv) b.mesh.faces_normals) := by
  cases hfs : checkFreeSurface d with
  | error e =>
      rw [mkDiffraction_error_of_mkLinear (mkLinear_error_of_checkFS hfs) angle conv] at hmk
      exact absurd hmk (by simp)
  | ok u =>
      cases u
      rcases mkLinear_of_checkFS_ok hfs with hlin | hlin
      · unfold mkDiffractionProblem at hmk
        simp only [hlin, bind, Except.bind, hb, pure, Except.pure, Except.ok.injEq] at hmk
        subst hmk
        exact ⟨rfl, rfl, rfl, rfl⟩
      · rw [mkDiffraction_error_of_mkLinear hlin angle conv] at hmk
        exact absurd hmk (by simp)

theorem mkRadiation_ok_inversion {d : ProblemData} {b : Body} {rdof : Option String}
    {r : RadiationProblem} (hb : d.body = some b)
    (hmk : mkRadiationProblem d rdof = Except.ok r) :
    ∃ (dofName : String) (dofVec : List Vec3),
      r.radiating_dof = some dofName ∧
      (rdof = none ∨ rdof = some dofName) ∧
      b.dofs.lookup dofName = some dofVec ∧
      r.data = d ∧
      r.boundary_condition = some (List.zipWith dot dofVec b.mesh.faces_normals) := by
  cases hfs : checkFreeSurface d with
  | error e =>
      rw [mkRadiation_error_of_mkLinear (mkLinear_error_of_checkFS hfs) rdof] at hmk
      exact absurd hmk (by simp)
  | ok u =>
      cases u
      rcases mkLinear_of_checkFS_ok hfs with hlin | hlin
      · unfold mkRadiationProblem at hmk
        simp only [hlin, bind, Except.bind, hb] at hmk
        cases hdofs : b.dofs with
        | nil =>
            rw [hdofs] at hmk
            simp [throw, throwThe, MonadExceptOf.throw] at hmk
        | cons hd tl =>
            obtain ⟨n0, v0⟩ := hd
            rw [hdofs] at hmk
            dsimp only at hmk
            cases hlk : List.lookup (rdof.getD n0) ((n0, v0) :: tl) with
            | none =>
                rw [hlk] at hmk
                simp [throw, throwThe, MonadExceptOf.throw] at hmk
            | some dofVec =>
                rw [hlk] at hmk
                simp only [pure, Except.pure, Except.ok.injEq] at hmk
                subst hmk
                refine ⟨rdof.getD n0, dofVec, rfl, ?_, hlk, rfl, rfl⟩
                cases rdof with
                | none => exact Or.inl rfl
                | some n => exact Or.inr rfl
      · rw [mkRadiation_error_of_mkLinear hlin rdof] at hmk
        exact absurd hmk (by simp)

/-- Claim C4: for every `RadiationProblem` built with a body whose declared
degrees of freedom contain the chosen `radiating_dof`, the derived boundary
condition is the per-face normal component of the chosen dof field:
`boundary_condition[i] = dof_vector[i] . face_normal[i]` for every face `i`. -/
theorem radiation_bc_componentwise (d : ProblemData) (b : Body) (dofName : String)
    (dofVec : List Vec3) (r : RadiationProblem) (i : ℕ) (dv nv : Vec3)
    (hb : d.body = some b)
    (hmk : mkRadiationProblem d (some dofName) = Except.ok r)
    (hlk : b.dofs.lookup dofName = some dofVec)
    (hdv : dofVec[i]? = some dv) (hnv : b.mesh.faces_normals[i]? = some nv) :
    r.boundary_condition = some (List.zipWith dot dofVec b.mesh.faces_normals) ∧
    (List.zipWith dot dofVec b.mesh.faces_normals)[i]? = some (dot dv nv) := by
  obtain ⟨dn, dvec, hrdof, hsame, hlk2, hdata, hbc⟩ := mkRadiation_ok_inversion hb hmk
  have hdn : dn = dofName := by
    rcases hsame with hsame | hsame
    · exact absurd hsame (by simp)
    · exact (Option.some.inj hsame).symm
  subst hdn
  rw [hlk2] at hlk
  have hvec : dvec = dofVec := Option.some.inj hlk
  exact ⟨hvec ▸ hbc, getElem?_zipWith_dot dofVec b.mesh.faces_normals i dv nv hdv hnv⟩

/-- The radiation problem built on `heaveBody` for its Heave dof: the
boundary condition is the per-face dof-normal product. -/
def heaveRadiationProblem : RadiationProblem :=
  { data := defaultData (some heaveBody), radiating_dof := some "Heave",
    boundary_condition := some [1, -1] }

/-- The diffraction problem built on `heaveBody` with angle 0 under the Nemoh
convention. -/
def diffractionSphere : DiffractionProblem :=
  { data := defaultData (some heaveBody), angle := 0, convention := "Nemoh",
    boundary_condition := some [1, -2] }

/-- Witness for C4: on the two-face body, the boundary condition is the
zipWith of dot products, and its entry 0 is the dot product of the first dof
vector with the first face normal. -/
theorem radiation_bc_componentwise_witness :
    heaveRadiationProblem.boundary_condition
        = some (List.zipWith dot ([(0, 0, 1), (0, 0, 1)] : List Vec3)
            heaveBody.mesh.faces_normals)
      ∧ (List.zipWith dot ([(0, 0, 1), (0, 0, 1)] : List Vec3)
            heaveBody.mesh.faces_normals)[0]?
        = some (dot (0, 0, 1) (0, 0, 1)) :=
  radiation_bc_componentwise (defaultData (some heaveBody)) heaveBody "Heave"
    ([(0, 0, 1), (0, 0, 1)] : List Vec3) heaveRadiationProblem 0 (0, 0, 1) (0, 0, 1) rfl
    (by with_unfolding_all rfl) (by with_unfolding_all rfl) rfl
    (by with_unfolding_all rfl)

/-- Claim C5: requesting a `radiating_dof` that is not among the declared
degrees of freedom of a (non-template) body with at least one dof fails with
the unknown-degree-of-freedom error, reporting the requested name and the
full list of valid dof names. -/
theorem radiation_unknown_dof (d : ProblemData) (b : Body) (dofName : String)
    (hb : d.body = some b) (hne : b.dofs ≠ [])
    (hfs : checkFreeSurface d = Except.ok ()) (hcd : checkDepth d = Except.ok ())
    (hnotin : dofName ∉ b.dofs.map Prod.fst) :
    mkRadiationProblem d (some dofName)
      = Except.error (ProblemError.unknownDegreeOfFreedom dofName (b.dofs.map Prod.fst)) := by
  have hlin : mkLinearPotentialFlowProblem d = Except.ok d := by
    simp [mkLinearPotentialFlowProblem, hfs, hcd, bind, Except.bind, pure, Except.pure]
  unfold mkRadiationProblem
  simp only [hlin, bind, Except.bind, hb]
  cases hdofs : b.dofs with
  | nil => exact absurd hdofs hne
  | cons hd tl =>
      obtain ⟨n0, v0⟩ := hd
      rw [hdofs] at hnotin
      have hlk : List.lookup dofName ((n0, v0) :: tl) = none :=
        lookup_eq_none_of_not_mem hnotin
      dsimp only [Option.getD_some]
      simp [hlk, throw, throwThe, MonadExceptOf.throw]

/-- Witness for C5: requesting Surge on a body whose only dof is Heave fails
listing exactly the valid set, the one-element list containing Heave. -/
theorem radiation_unknown_dof_witness :
    mkRadiationProblem (defaultData (some heaveBody)) (some "Surge")
      = Except.error (ProblemError.unknownDegreeOfFreedom "Surge" ["Heave"]) := by
  have h := radiation_unknown_dof (defaultData (some heaveBody)) heaveBody "Surge" rfl
    (by with_unfolding_all decide) (by with_unfolding_all rfl) (by with_unfolding_all rfl)
    (by with_unfolding_all decide)
  simpa [heaveBody] using h

/-- Claim C6: every concrete (body-supplied) diffraction or radiation problem
that constructs successfully has a boundary condition with exactly one entry
per mesh face, whatever the face count. -/
theorem bc_length_eq_nbFaces (d : ProblemData) (b : Body)
    (hb : d.body = some b) (hwf : Body.wf b) :
    (∀ (angle : ℚ) (conv : String) (p : DiffractionProblem),
      mkDiffractionProblem d angle conv = Except.ok p →
      Option.map List.length p.boundary_condition = some b.mesh.nbFaces) ∧
    (∀ (rdof : Option String) (r : RadiationProblem),
      mkRadiationProblem d rdof = Except.ok r →
      Option.map List.length r.boundary_condition = some b.mesh.nbFaces) := by
  obtain ⟨hnorm, hdof⟩ := hwf
  constructor
  · intro angle conv p hmk
    obtain ⟨_, _, _, hbc⟩ := mkDiffraction_ok_inversion hb hmk
    rw [hbc]
    simp [Airy_wave_velocity, List.length_zipWith, hnorm, Mesh.nbFaces]
  · intro rdof r hmk
    obtain ⟨dn, dvec, _, _, hlk, _, hbc⟩ := mkRadiation_ok_inversion hb hmk
    have hlen : dvec.length = b.mesh.nbFaces := hdof _ (mem_of_lookup_eq_some hlk)
    rw [hbc]
    simp [List.length_zipWith, hnorm, hlen]

theorem heaveBody_wf : Body.wf heaveBody := by
  refine ⟨rfl, ?_⟩
  intro p hp
  simp only [heaveBody, List.mem_singleton] at hp
  subst hp
  rfl

/-- Witness for C6: on the two-face body both the diffraction and the
radiation boundary conditions have two entries. -/
theorem bc_length_eq_nbFaces_witness :
    Option.map List.length diffractionSphere.boundary_condition
        = some heaveBody.mesh.nbFaces ∧
      Option.map List.length heaveRadiationProblem.boundary_condition
        = some heaveBody.mesh.nbFaces :=
  ⟨(bc_length_eq_nbFaces (defaultData (some heaveBody)) heaveBody rfl
      heaveBody_wf).1 0 "Nemoh" diffractionSphere
      (by with_unfolding_all rfl),
   (bc_length_eq_nbFaces (defaultData (some heaveBody)) heaveBody rfl
      heaveBody_wf).2 (some "Heave") heaveRadiationProblem
      (by with_unfolding_all rfl)⟩

/-- Claim C10: a `RadiationProblem` built without a body (a template problem)
always succeeds when the environment fields are legal, with
`boundary_condition = None`, and both degree-of-freedom checks are skipped
entirely, whatever `radiating_dof` is (so neither `NoDegreesOfFreedom` nor
`UnknownDegreeOfFreedom` can be raised). -/
theorem radiation_template_skips_dof_checks (d : ProblemData) (rdof : Option String)
    (hb : d.body = none) (h1 : checkFreeSurface d = Except.ok ())
    (h2 : checkDepth d = Except.ok ()) :
    mkRadiationProblem d rdof
      = Except.ok { data := d, radiating_dof := rdof, boundary_condition := none } := by
  simp [mkRadiationProblem, mkLinearPotentialFlowProblem, h1, h2, hb,
    bind, Except.bind, pure, Except.pure]

/-- The expected result of building a template radiation problem with the
arbitrary dof name NotADof. -/
def radiationTemplateNamed : RadiationProblem :=
  { data := defaultData none, radiating_dof := some "NotADof", boundary_condition := none }

/-- Witness for C10: a template radiation problem with an arbitrary dof name
is built with no boundary condition. -/
theorem radiation_template_skips_dof_checks_witness :
    mkRadiationProblem (defaultData none) (some "NotADof") = Except.ok radiationTemplateNamed :=
  radiation_template_skips_dof_checks (defaultData none) (some "NotADof") rfl
    (by with_unfolding_all rfl) (by with_unfolding_all rfl)

end Capytaine
